import Mathlib

/-!
Shallow embedding of the video-generation request builder and orchestrator
of the VIDEO-RAFAEL repository (src/services/geminiService.ts together with
the fuller variant in src/unnamed/part_000, and the error-classification
state machine of src/App.tsx), with theorems checking the natural-language
specification against it.
-/

/-- Generation modes of the application (the `GenerationMode` enum of
`types.ts`; `TEXT_TO_VIDEO` is the implicit default mode in which none of
the mode-specific branches of `generateVideo` fires). -/
inductive GenerationMode where
  | TEXT_TO_VIDEO
  | FRAMES_TO_VIDEO
  | REFERENCES_TO_VIDEO
  | SOCIAL_PROMO
  | EXTEND_VIDEO
deriving DecidableEq, Repr

/-- An image asset as carried by the config: base64 payload plus the MIME
type of the underlying file (`img.base64`, `img.file.type`). -/
structure ImageFile where
  base64 : String
  mimeType : String
deriving DecidableEq, Repr

/-- The image descriptor placed into payloads:
`\x7bimageBytes, mimeType\x7d` in the source. -/
structure ImagePayload where
  imageBytes : String
  mimeType : String
deriving DecidableEq, Repr

/-- Conversion applied everywhere an `ImageFile` enters the payload. -/
def toImagePayload (f : ImageFile) : ImagePayload :=
  { imageBytes := f.base64, mimeType := f.mimeType }

/-- A reference-image entry of the payload, tagged with the reference type
(`VideoGenerationReferenceType.ASSET` in the source). -/
structure RefImagePayload where
  image : ImagePayload
  referenceType : String
deriving DecidableEq, Repr

/-- The remote-side video descriptor (the SDK `Video` object); the code
reads only its `uri`. -/
structure VideoObj where
  uri : String
deriving DecidableEq, Repr

/-- The `GenerateVideoParams` configuration consumed by `generateVideo`.
Optional text fields that the code reads through JavaScript truthiness
(`params.promoText || ...`) are modelled as `Option`; `prompt` is modelled
as a plain string because the code immediately coalesces it with
`params.prompt || ""` and every later use tests emptiness. -/
structure GenerateVideoParams where
  mode : GenerationMode
  prompt : String
  model : String
  resolution : String
  aspectRatio : String
  startFrame : Option ImageFile
  endFrame : Option ImageFile
  isLooping : Bool
  referenceImages : List ImageFile
  inputVideoObject : Option VideoObj
  promoText : Option String
  promoPrice : Option String
  promoPercent : Option Nat
deriving DecidableEq, Repr

/-- The assembled request payload (`generateVideoPayload` with its nested
`config` flattened: `numberOfVideos`, `resolution`, `aspectRatio`,
`lastFrame` and `referenceImages` live inside `config` in the source). -/
structure RequestPayload where
  model : String
  numberOfVideos : Nat
  resolution : String
  aspectRatio : Option String
  prompt : Option String
  image : Option ImagePayload
  lastFrame : Option ImagePayload
  referenceImages : Option (List RefImagePayload)
  video : Option VideoObj
deriving DecidableEq, Repr

/-- Error taxonomy of `generateVideo`; each constructor corresponds to one
`throw new Error(...)` site (messages in `errMessage`). -/
inductive GenError where
  | missingKey
  | validation
  | emptyResult
  | download (status : Nat)
deriving DecidableEq, Repr

/-- The literal message strings thrown by the source code. -/
def errMessage : GenError → String
  | GenError.missingKey =>
      "API key is missing or empty. Please select a valid paid API key."
  | GenError.validation =>
      "An input video object is required to extend a video."
  | GenError.emptyResult => "No videos generated."
  | GenError.download status => "Failed to fetch video: " ++ toString status

/-- JavaScript `a || d` for an optional string field: `undefined` and the
empty string are both falsy and fall back to the default. -/
def defStr : Option String → String → String
  | none, d => d
  | some s, d => if s = "" then d else s

/-- JavaScript `a || d` for an optional numeric field: `undefined` and `0`
are both falsy and fall back to the default. -/
def defNat : Option Nat → Nat → Nat
  | none, d => d
  | some n, d => if n = 0 then d else n

/-- The SOCIAL_PROMO prompt template of src/unnamed/part_000 (template
literal, lines 52-59), with the user prompt appended when non-empty. -/
def promoPrompt (pText pPrice : String) (pPercent : Nat) (userPrompt : String) : String :=
  "Cinematic social media promo video. \n" ++
  "    Use the provided poster as the background and visual base. \n" ++
  "    In the blue empty area at the bottom, add a high-impact, bold blinking text that says \"" ++
  pText ++ "\". \n" ++
  "    Directly below it, add the team name \"" ++ pPrice ++ "\". \n" ++
  "    Below the text, animate a glowing, high-tech loading bar that is exactly " ++
  toString pPercent ++ "% full. \n" ++
  "    Next to the loading bar, add the text \"ESGOTANDO UM LOADING " ++
  toString pPercent ++ "%\". \n" ++
  "    The style should be energetic, matching the summer/concert theme with vibrant glows and smooth motion. \n" ++
  "    Ensure the main promotional text pulses with a \"Buy Now\" urgency. " ++
  (if userPrompt = "" then "" else " Additional user instructions: " ++ userPrompt)

/-- The SOCIAL_PROMO prompt template of src/services/geminiService.ts
(template literal, lines 46-51), the other variant of the same service. -/
def promoPromptG (pText pPrice : String) (pPercent : Nat) (userPrompt : String) : String :=
  "Motion graphic promo video based on the provided poster. \n" ++
  "    In the blue empty area at the bottom, animate a bold, high-contrast blinking text that says \"" ++
  pText ++ "\". \n" ++
  "    Below it, add the subtitle \"" ++ pPrice ++ "\". \n" ++
  "    Below that, animate a sleek, modern glowing loading progress bar filled to exactly " ++
  toString pPercent ++ "%, with the text \"ESGOTANDO UM LOADING " ++
  toString pPercent ++ "%\" next to it. \n" ++
  "    The style should be vibrant, professional, and matching the colors (orange, white, blue) of the base image. \n" ++
  "    Make the text blinking effect high-energy. " ++
  (if userPrompt = "" then "" else " Additional details: " ++ userPrompt)

/-- The pure request-assembly part of `generateVideo`
(src/unnamed/part_000 lines 28-114): config initialisation, aspect-ratio
omission for EXTEND_VIDEO, prompt synthesis for SOCIAL_PROMO, and the
mode-specific payload augmentations, failing with the validation error when
EXTEND_VIDEO lacks an input video object. -/
def buildPayload (p : GenerateVideoParams) : Except GenError RequestPayload :=
  let aspect := if p.mode = GenerationMode.EXTEND_VIDEO then none else some p.aspectRatio
  let finalPrompt :=
    if p.mode = GenerationMode.SOCIAL_PROMO then
      promoPrompt (defStr p.promoText "INGRESSO PROMOCIONAL R$50")
        (defStr p.promoPrice "EQUIPE CERTA") (defNat p.promoPercent 94) p.prompt
    else p.prompt
  let promptField := if finalPrompt = "" then none else some finalPrompt
  let image :=
    if p.mode = GenerationMode.SOCIAL_PROMO ∨ p.mode = GenerationMode.FRAMES_TO_VIDEO then
      Option.map toImagePayload p.startFrame
    else none
  let lastFrame :=
    if p.mode = GenerationMode.FRAMES_TO_VIDEO then
      Option.map toImagePayload (if p.isLooping then p.startFrame else p.endFrame)
    else none
  let refList := p.referenceImages.map fun img => RefImagePayload.mk (toImagePayload img) "ASSET"
  let refField :=
    if p.mode = GenerationMode.REFERENCES_TO_VIDEO ∧ 0 < refList.length then some refList
    else none
  if p.mode = GenerationMode.EXTEND_VIDEO ∧ p.inputVideoObject = none then
    Except.error GenError.validation
  else
    Except.ok
      { model := p.model
        numberOfVideos := 1
        resolution := p.resolution
        aspectRatio := aspect
        prompt := promptField
        image := image
        lastFrame := lastFrame
        referenceImages := refField
        video := if p.mode = GenerationMode.EXTEND_VIDEO then p.inputVideoObject else none }

/-- Whitespace trimming on character lists (JavaScript
`String.prototype.trim`): drop leading and trailing whitespace. -/
def trimListWS (l : List Char) : List Char :=
  ((l.dropWhile Char.isWhitespace).reverse.dropWhile Char.isWhitespace).reverse

/-- Whitespace trimming on strings. -/
def trimStr (s : String) : String :=
  String.mk (trimListWS s.data)

/-- Credential resolution (src/unnamed/part_000 lines 18-23): the key is
usable only when it is present and not blank after trimming; JavaScript
`!apiKey` also rejects the empty string, which trimming covers. -/
def resolveKey : Option String → Option String
  | none => none
  | some k => if trimStr k = "" then none else some k

/-- One generated-video entry of a completed operation response. -/
structure GeneratedVideo where
  video : VideoObj
deriving DecidableEq, Repr

/-- The response of a completed operation: its generated-video list may be
absent (`!videos` in the source) or empty. -/
structure OpResponse where
  generatedVideos : Option (List GeneratedVideo)
deriving DecidableEq, Repr

/-- A remote operation handle: completion flag plus, possibly, a response
(`operation?.response` may be absent). -/
structure Operation where
  done : Bool
  response : Option OpResponse
deriving DecidableEq, Repr

/-- The remote-service boundary, as a deterministic oracle: `submit` answers
the generation request, `pollOp` answers the k-th status poll (k counted
from 1), and `fetchRes` answers the artifact HTTP GET with an HTTP status
and a body. -/
structure Remote where
  submit : RequestPayload → Operation
  pollOp : Nat → Operation
  fetchRes : String → Nat × String

/-- Hexadecimal digit value, as used by percent-decoding. -/
def hexVal (c : Char) : Option Nat :=
  if '0' ≤ c ∧ c ≤ '9' then some (c.toNat - 48)
  else if 'A' ≤ c ∧ c ≤ 'F' then some (c.toNat - 55)
  else if 'a' ≤ c ∧ c ≤ 'f' then some (c.toNat - 87)
  else none

/-- Percent-decoding on character lists: each well-formed `%XX` escape is
replaced by the character with code `XX` (ASCII-level model of
JavaScript `decodeURIComponent`); other characters pass through. -/
def percentDecodeList : List Char → List Char
  | '%' :: h1 :: h2 :: rest =>
    match hexVal h1, hexVal h2 with
    | some a, some b => Char.ofNat (16 * a + b) :: percentDecodeList rest
    | _, _ => '%' :: percentDecodeList (h1 :: h2 :: rest)
  | c :: rest => c :: percentDecodeList rest
  | [] => []

/-- Percent-decoding on strings (`decodeURIComponent(videoObject.uri)`). -/
def percentDecode (s : String) : String :=
  String.mk (percentDecodeList s.data)

/-- The artifact returned by `generateVideo` on success: the downloaded
bytes, the percent-decoded remote URI, and the remote video descriptor (the
object URL is a browser-local handle over the same bytes and is not part of
the model). -/
structure Artifact where
  blob : String
  uri : String
  video : VideoObj
deriving DecidableEq, Repr

/-- Observable effects of one `generateVideo` run: its result, the number
of submit, poll and fetch transport calls, and the list of suspension
durations (milliseconds) performed, in order. -/
structure RunStats where
  result : Except GenError Artifact
  submits : Nat
  polls : Nat
  fetches : Nat
  sleeps : List Nat

/-- The poll loop of `generateVideo` (`while (!operation.done)`), with the
k-th poll answered by the oracle; `fuel` bounds how many polls this model
will execute, `none` meaning the loop is still running after `fuel` polls
(the source loop itself has no bound). Returns the final operation and the
number of polls made. -/
def pollLoop (r : Remote) (fuel : Nat) (op : Operation) (k : Nat) :
    Option (Operation × Nat) :=
  if op.done then some (op, k)
  else
    match fuel with
    | 0 => none
    | Nat.succ fuel => pollLoop r fuel (r.pollOp (k + 1)) (k + 1)

/-- The completion check and artifact fetch of `generateVideo`
(src/unnamed/part_000 lines 124-142), applied to the operation the poll
loop ended with: returns the result together with the number of fetch
calls made (0 when no fetch is attempted). -/
def finishResult (r : Remote) (key : String) (opF : Operation) :
    Except GenError Artifact × Nat :=
  match opF.response with
  | none => (Except.error GenError.emptyResult, 0)
  | some resp =>
    match resp.generatedVideos with
    | none => (Except.error GenError.emptyResult, 0)
    | some [] => (Except.error GenError.emptyResult, 0)
    | some (gv :: _) =>
      let url := percentDecode gv.video.uri
      let res := r.fetchRes (url ++ "&key=" ++ key)
      if 200 ≤ res.1 ∧ res.1 ≤ 299 then
        (Except.ok ⟨res.2, url, gv.video⟩, 1)
      else
        (Except.error (GenError.download res.1), 1)

/-- The whole of `generateVideo` (src/unnamed/part_000): credential check,
request assembly, submit, poll loop (10-second suspension before each
poll), completion check, and artifact fetch with the key appended as a
query parameter. `none` means the poll loop was still running after `fuel`
polls. -/
def runGenerate (r : Remote) (apiKey : Option String) (p : GenerateVideoParams)
    (fuel : Nat) : Option RunStats :=
  match resolveKey apiKey with
  | none => some ⟨Except.error GenError.missingKey, 0, 0, 0, []⟩
  | some key =>
    match buildPayload p with
    | Except.error e => some ⟨Except.error e, 0, 0, 0, []⟩
    | Except.ok pay =>
      match pollLoop r fuel (r.submit pay) 0 with
      | none => none
      | some (opF, polls) =>
        some
          { result := (finishResult r key opF).1
            submits := 1
            polls := polls
            fetches := (finishResult r key opF).2
            sleeps := List.replicate polls 10000 }

/-- The operation the orchestrator holds after k transport responses for a
given payload: index 0 is the submit response, index k ≥ 1 the k-th poll
response. -/
def opSeq (r : Remote) (pay : RequestPayload) : Nat → Operation
  | 0 => r.submit pay
  | Nat.succ k => r.pollOp (Nat.succ k)

/-- Substring test on character lists (JavaScript `String.includes`). -/
def listContains (pat : List Char) : List Char → Bool
  | [] => pat.isEmpty
  | c :: rest => pat.isPrefixOf (c :: rest) || listContains pat rest

/-- Substring test on strings: `strContains s pat` is `s.includes(pat)`. -/
def strContains (s pat : String) : Bool :=
  listContains pat.data s.data

/-- Number of positions of a character list at which the pattern occurs. -/
def listCountOccs (pat : List Char) : List Char → Nat
  | [] => 0
  | c :: rest =>
    (if pat.isPrefixOf (c :: rest) then 1 else 0) + listCountOccs pat rest

/-- Number of occurrences of a (non-empty) pattern in a string. -/
def countOccs (pat s : String) : Nat :=
  listCountOccs pat.data s.data

/-- UI lifecycle states of App.tsx (`AppState`). -/
inductive UIAppState where
  | IDLE
  | LOADING
  | SUCCESS
  | ERROR
deriving DecidableEq, Repr

/-- The App.tsx state variables that the generation flow touches. -/
structure UIState where
  appState : UIAppState
  errorMessage : Option String
  lastConfig : Option GenerateVideoParams
  initialFormValues : Option GenerateVideoParams
  pendingParams : Option GenerateVideoParams
  showApiKeyDialog : Bool

/-- State updates performed by `handleGenerate` before awaiting
`generateVideo` (App.tsx lines 73-76). -/
def preGenerate (st : UIState) (params : GenerateVideoParams) : UIState :=
  { st with
    appState := UIAppState.LOADING
    errorMessage := none
    lastConfig := some params
    initialFormValues := none }

/-- The catch block of `handleGenerate` (App.tsx lines 85-124): substring
classification of the failure message, the silent-return special case when
the key check was skipped, and the dialog-opening remediation paths. -/
def handleGenerateCatch (st : UIState) (params : GenerateVideoParams)
    (skipKeyCheck : Bool) (errorMsg : String) : UIState :=
  if strContains errorMsg "An API Key must be set" ||
      strContains errorMsg "API key is missing" then
    if skipKeyCheck then
      { st with appState := UIAppState.IDLE, initialFormValues := some params }
    else
      { st with
        errorMessage := some "API Key missing. Please select a valid paid API key."
        appState := UIAppState.ERROR
        pendingParams := some params
        showApiKeyDialog := true }
  else if strContains errorMsg "Requested entity was not found." then
    { st with
      errorMessage :=
        some "Model or entity not found. Please ensure you have selected a valid, paid API key."
      appState := UIAppState.ERROR
      pendingParams := some params
      showApiKeyDialog := true }
  else if strContains errorMsg "API_KEY_INVALID" ||
      strContains errorMsg "API key not valid" ||
      strContains errorMsg.toLower "permission denied" ||
      strContains errorMsg.toLower "unauthenticated" then
    { st with
      errorMessage :=
        some "A valid, paid API key is required for Veo. Please select one from the dialog."
      appState := UIAppState.ERROR
      pendingParams := some params
      showApiKeyDialog := true }
  else
    { st with
      errorMessage := some ("Video generation failed: " ++ errorMsg)
      appState := UIAppState.ERROR }

/-- One failed generation attempt as App.tsx observes it: the pre-await
state updates followed by the catch block. -/
def handleGenerateFailed (st : UIState) (params : GenerateVideoParams)
    (skipKeyCheck : Bool) (errorMsg : String) : UIState :=
  handleGenerateCatch (preGenerate st params) params skipKeyCheck errorMsg

/-- The generation call issued by `handleApiKeyDialogContinue` after the
user picks a key (App.tsx lines 139-148): retries the pending or last
configuration with the key check skipped, or just returns to IDLE. -/
def dialogContinueCall (st : UIState) : Option (GenerateVideoParams × Bool) :=
  match st.pendingParams with
  | some p => some (p, true)
  | none =>
    match st.appState, st.lastConfig with
    | UIAppState.ERROR, some c => some (c, true)
    | _, _ => none

/-- A sample start-frame asset used by concrete checks. -/
def sampleImage : ImageFile := ⟨"STARTB64", "image/png"⟩

/-- A sample end-frame asset used by concrete checks. -/
def sampleImage2 : ImageFile := ⟨"ENDB64", "image/jpeg"⟩

/-- A plain text-to-video configuration. -/
def cfgText : GenerateVideoParams :=
  { mode := GenerationMode.TEXT_TO_VIDEO, prompt := "a red car", model := "veo-3",
    resolution := "720p", aspectRatio := "16:9", startFrame := none, endFrame := none,
    isLooping := false, referenceImages := [], inputVideoObject := none,
    promoText := none, promoPrice := none, promoPercent := none }

/-- The payload assembled for `cfgText`. -/
def payText : RequestPayload :=
  { model := "veo-3", numberOfVideos := 1, resolution := "720p",
    aspectRatio := some "16:9", prompt := some "a red car", image := none,
    lastFrame := none, referenceImages := none, video := none }

/-- A looping frames-to-video configuration with distinct start and end
frames. -/
def cfgFrames : GenerateVideoParams :=
  { mode := GenerationMode.FRAMES_TO_VIDEO, prompt := "loop it", model := "veo-3",
    resolution := "720p", aspectRatio := "9:16", startFrame := some sampleImage,
    endFrame := some sampleImage2, isLooping := true, referenceImages := [],
    inputVideoObject := none, promoText := none, promoPrice := none, promoPercent := none }

/-- The payload assembled for `cfgFrames`. -/
def payFrames : RequestPayload :=
  { model := "veo-3", numberOfVideos := 1, resolution := "720p",
    aspectRatio := some "9:16", prompt := some "loop it",
    image := some ⟨"STARTB64", "image/png"⟩, lastFrame := some ⟨"STARTB64", "image/png"⟩,
    referenceImages := none, video := none }

/-- The social-promo scenario configuration of the spec: 50 percent fill
and a start frame. -/
def cfgSocial : GenerateVideoParams :=
  { mode := GenerationMode.SOCIAL_PROMO, prompt := "", model := "veo-3",
    resolution := "1080p", aspectRatio := "9:16", startFrame := some sampleImage,
    endFrame := none, isLooping := false, referenceImages := [], inputVideoObject := none,
    promoText := none, promoPrice := none, promoPercent := some 50 }

/-- The payload assembled for `cfgSocial`. -/
def paySocial : RequestPayload :=
  { model := "veo-3", numberOfVideos := 1, resolution := "1080p",
    aspectRatio := some "9:16",
    prompt := some (promoPrompt "INGRESSO PROMOCIONAL R$50" "EQUIPE CERTA" 50 ""),
    image := some ⟨"STARTB64", "image/png"⟩, lastFrame := none,
    referenceImages := none, video := none }

/-- A social-promo configuration whose overlay fields are all falsy but
present: empty strings and zero. -/
def cfgSocialFalsy : GenerateVideoParams :=
  { mode := GenerationMode.SOCIAL_PROMO, prompt := "make it pop", model := "veo-3",
    resolution := "720p", aspectRatio := "16:9", startFrame := none,
    endFrame := none, isLooping := false, referenceImages := [], inputVideoObject := none,
    promoText := some "", promoPrice := some "", promoPercent := some 0 }

/-- The payload assembled for `cfgSocialFalsy`. -/
def paySocialFalsy : RequestPayload :=
  { model := "veo-3", numberOfVideos := 1, resolution := "720p",
    aspectRatio := some "16:9",
    prompt := some (promoPrompt "INGRESSO PROMOCIONAL R$50" "EQUIPE CERTA" 94 "make it pop"),
    image := none, lastFrame := none, referenceImages := none, video := none }

/-- An extension configuration with no input video object. -/
def cfgExtendNone : GenerateVideoParams :=
  { mode := GenerationMode.EXTEND_VIDEO, prompt := "continue", model := "veo-3",
    resolution := "720p", aspectRatio := "16:9", startFrame := none, endFrame := none,
    isLooping := false, referenceImages := [], inputVideoObject := none,
    promoText := none, promoPrice := none, promoPercent := none }

/-- A still-pending operation. -/
def opPending : Operation := ⟨false, none⟩

/-- A sample percent-encoded remote video URI. -/
def sampleVideoObj : VideoObj := ⟨"https%3A%2F%2Fcdn%2Fv1"⟩

/-- A completed operation carrying one generated video. -/
def opDoneVideo : Operation := ⟨true, some ⟨some [⟨sampleVideoObj⟩]⟩⟩

/-- A remote that never has to be polled and is never fetched from. -/
def idleRemote : Remote :=
  ⟨fun _ => ⟨true, none⟩, fun _ => opPending, fun _ => (200, "")⟩

/-- A remote that reports not-done on submit and on the first poll, then
done with one video on the second poll; fetches succeed. -/
def remotePoll2 : Remote :=
  ⟨fun _ => opPending, fun k => if 2 ≤ k then opDoneVideo else opPending,
   fun _ => (200, "VIDEOBYTES")⟩

/-- A remote whose operation completes immediately with an empty
generated-video list. -/
def remoteEmpty : Remote :=
  ⟨fun _ => ⟨true, some ⟨some []⟩⟩, fun _ => opPending, fun _ => (200, "")⟩

/-- A remote whose operation completes immediately with one video but whose
artifact fetch is rejected with HTTP 403. -/
def remote403 : Remote :=
  ⟨fun _ => opDoneVideo, fun _ => opPending, fun _ => (403, "denied")⟩

/-- A quiescent UI state. -/
def uiIdle : UIState :=
  { appState := UIAppState.IDLE, errorMessage := none, lastConfig := none,
    initialFormValues := none, pendingParams := none, showApiKeyDialog := false }

lemma listContains_append_self (xs pat : List Char) (hp : pat ≠ []) :
    listContains pat (xs ++ pat) = true := by
  induction xs with
  | nil =>
    cases pat with
    | nil => exact absurd rfl hp
    | cons c cs => simp [listContains, List.isPrefixOf_iff_prefix]
  | cons x xs ih => simp [listContains, ih]

lemma str_ne_empty_iff_data {t : String} : t ≠ "" ↔ t.data ≠ [] := by
  constructor
  · intro h hd
    exact h (String.ext hd)
  · intro h hd
    exact h (by rw [hd])

lemma strContains_append (s t : String) (ht : t ≠ "") :
    strContains (s ++ t) t = true := by
  have hd : t.data ≠ [] := str_ne_empty_iff_data.mp ht
  simpa [strContains, String.data_append] using
    listContains_append_self s.data t.data hd

set_option maxRecDepth 4000 in
lemma promoPrompt_ne_empty (t pr : String) (n : Nat) (u : String) :
    promoPrompt t pr n u ≠ "" := by
  intro h
  have hd := congrArg String.data h
  simp [promoPrompt, String.data_append, List.append_eq_nil] at hd

lemma promoPrompt_contains_user (t pr : String) (n : Nat) (u : String) (hu : u ≠ "") :
    strContains (promoPrompt t pr n u) u = true := by
  unfold promoPrompt
  rw [if_neg hu, ← String.append_assoc]
  exact strContains_append _ u hu

lemma promoPromptG_contains_user (t pr : String) (n : Nat) (u : String) (hu : u ≠ "") :
    strContains (promoPromptG t pr n u) u = true := by
  unfold promoPromptG
  rw [if_neg hu, ← String.append_assoc]
  exact strContains_append _ u hu

lemma social_prompt_eq (p : GenerateVideoParams) (pay : RequestPayload)
    (hm : p.mode = GenerationMode.SOCIAL_PROMO)
    (hb : buildPayload p = Except.ok pay) :
    pay.prompt = some (promoPrompt (defStr p.promoText "INGRESSO PROMOCIONAL R$50")
      (defStr p.promoPrice "EQUIPE CERTA") (defNat p.promoPercent 94) p.prompt) := by
  simp [buildPayload, hm, promoPrompt_ne_empty] at hb
  subst hb
  rfl

lemma social_image_eq (p : GenerateVideoParams) (pay : RequestPayload)
    (hm : p.mode = GenerationMode.SOCIAL_PROMO)
    (hb : buildPayload p = Except.ok pay) :
    pay.image = Option.map toImagePayload p.startFrame := by
  simp [buildPayload, hm, promoPrompt_ne_empty] at hb
  subst hb
  rfl

lemma pollLoop_done (r : Remote) (fuel : Nat) (op : Operation) (k : Nat)
    (h : op.done = true) : pollLoop r fuel op k = some (op, k) := by
  cases fuel <;> simp [pollLoop, h]

lemma pollLoop_opSeq (r : Remote) (pay : RequestPayload) (n : Nat)
    (hlt : ∀ k, k < n → (opSeq r pay k).done = false)
    (hn : (opSeq r pay n).done = true) :
    ∀ fuel k, k ≤ n → n - k ≤ fuel →
      pollLoop r fuel (opSeq r pay k) k = some (opSeq r pay n, n) := by
  intro fuel
  induction fuel with
  | zero =>
    intro k hk hfk
    have hkn : k = n := le_antisymm hk (by omega)
    subst hkn
    exact pollLoop_done r 0 _ k hn
  | succ fuel ih =>
    intro k hk hfk
    rcases eq_or_lt_of_le hk with heq | hlt2
    · subst heq
      exact pollLoop_done r _ _ k hn
    · have hdk := hlt k hlt2
      rw [pollLoop]
      simp only [hdk, Bool.false_eq_true, if_false]
      exact ih (k + 1) hlt2 (by omega)

lemma pollLoop_never (r : Remote) (pay : RequestPayload)
    (hall : ∀ k, (opSeq r pay k).done = false) :
    ∀ fuel k, pollLoop r fuel (opSeq r pay k) k = none := by
  intro fuel
  induction fuel with
  | zero =>
    intro k
    simp [pollLoop, hall k]
  | succ fuel ih =>
    intro k
    rw [pollLoop]
    simp only [hall k, Bool.false_eq_true, if_false]
    exact ih (k + 1)

lemma runGenerate_eq (r : Remote) (key : String) (p : GenerateVideoParams)
    (pay : RequestPayload) (fuel : Nat)
    (hk : trimStr key ≠ "") (hb : buildPayload p = Except.ok pay) :
    runGenerate r (some key) p fuel =
      match pollLoop r fuel (r.submit pay) 0 with
      | none => none
      | some (opF, polls) =>
        some
          { result := (finishResult r key opF).1
            submits := 1
            polls := polls
            fetches := (finishResult r key opF).2
            sleeps := List.replicate polls 10000 } := by
  simp [runGenerate, resolveKey, hk, hb]

lemma dialog_continue_snd (st : UIState) :
    Option.map Prod.snd (dialogContinueCall st) = none ∨
    Option.map Prod.snd (dialogContinueCall st) = some true := by
  unfold dialogContinueCall
  cases st.pendingParams with
  | some p => right; rfl
  | none => cases st.appState <;> cases st.lastConfig <;> simp

/-- C1: whenever no API credential is configured or the configured
credential is empty (blank), `generateVideo` fails with the
missing-credential error before any remote call: zero submit, poll and
fetch calls occur, for every remote service, configuration and fuel, so no
default or fallback credential can bypass the check. -/
theorem missing_credential_rejects_before_transport (r : Remote)
    (p : GenerateVideoParams) (fuel : Nat) (apiKey : Option String)
    (h : apiKey = none ∨ ∃ s, apiKey = some s ∧ trimStr s = "") :
    runGenerate r apiKey p fuel =
      some { result := Except.error GenError.missingKey, submits := 0, polls := 0,
             fetches := 0, sleeps := [] } := by
  rcases h with h | ⟨s, hs, hts⟩
  · subst h
    simp [runGenerate, resolveKey]
  · subst hs
    simp [runGenerate, resolveKey, hts]

/-- Witness for C1 at the blank credential and a concrete config. -/
theorem missing_credential_rejects_before_transport_witness :
    runGenerate idleRemote (some "   ") cfgText 3 =
      some { result := Except.error GenError.missingKey, submits := 0, polls := 0,
             fetches := 0, sleeps := [] } :=
  missing_credential_rejects_before_transport idleRemote cfgText 3 (some "   ")
    (Or.inr ⟨"   ", rfl, by decide⟩)

/-- C2: in every successfully assembled payload the mode-specific
augmentations are mutually exclusive and determined by the mode alone:
reference images only in REFERENCES_TO_VIDEO, the extension video only in
EXTEND_VIDEO, the last frame only in FRAMES_TO_VIDEO, the seed image only
in FRAMES_TO_VIDEO or SOCIAL_PROMO; a SOCIAL_PROMO config with a start
frame gets it as the seed image; and no payload carries two distinct
augmentations. -/
theorem mode_determines_unique_augmentation (p : GenerateVideoParams)
    (pay : RequestPayload) (hb : buildPayload p = Except.ok pay) :
    (pay.referenceImages.isSome = true → p.mode = GenerationMode.REFERENCES_TO_VIDEO)
  ∧ (pay.video.isSome = true → p.mode = GenerationMode.EXTEND_VIDEO)
  ∧ (pay.lastFrame.isSome = true → p.mode = GenerationMode.FRAMES_TO_VIDEO)
  ∧ (pay.image.isSome = true →
      p.mode = GenerationMode.FRAMES_TO_VIDEO ∨ p.mode = GenerationMode.SOCIAL_PROMO)
  ∧ (p.mode = GenerationMode.SOCIAL_PROMO →
      pay.image = Option.map toImagePayload p.startFrame)
  ∧ ¬(pay.referenceImages.isSome = true ∧ pay.video.isSome = true)
  ∧ ¬(pay.referenceImages.isSome = true ∧
      (pay.lastFrame.isSome = true ∨ pay.image.isSome = true))
  ∧ ¬(pay.video.isSome = true ∧
      (pay.lastFrame.isSome = true ∨ pay.image.isSome = true)) := by
  cases hm : p.mode
  case TEXT_TO_VIDEO =>
    simp [buildPayload, hm] at hb
    subst hb
    simp [hm]
  case FRAMES_TO_VIDEO =>
    simp [buildPayload, hm] at hb
    subst hb
    simp [hm]
  case REFERENCES_TO_VIDEO =>
    simp [buildPayload, hm] at hb
    subst hb
    simp [hm]
  case SOCIAL_PROMO =>
    simp [buildPayload, hm] at hb
    subst hb
    simp [hm]
  case EXTEND_VIDEO =>
    cases hv : p.inputVideoObject with
    | none => simp [buildPayload, hm, hv] at hb
    | some v =>
      simp [buildPayload, hm, hv] at hb
      subst hb
      simp [hm]

/-- Witness for C2 at a looping frames-to-video config. -/
theorem mode_determines_unique_augmentation_witness :
    (payFrames.referenceImages.isSome = true →
      cfgFrames.mode = GenerationMode.REFERENCES_TO_VIDEO)
  ∧ (payFrames.video.isSome = true → cfgFrames.mode = GenerationMode.EXTEND_VIDEO)
  ∧ (payFrames.lastFrame.isSome = true → cfgFrames.mode = GenerationMode.FRAMES_TO_VIDEO)
  ∧ (payFrames.image.isSome = true →
      cfgFrames.mode = GenerationMode.FRAMES_TO_VIDEO ∨
        cfgFrames.mode = GenerationMode.SOCIAL_PROMO)
  ∧ (cfgFrames.mode = GenerationMode.SOCIAL_PROMO →
      payFrames.image = Option.map toImagePayload cfgFrames.startFrame)
  ∧ ¬(payFrames.referenceImages.isSome = true ∧ payFrames.video.isSome = true)
  ∧ ¬(payFrames.referenceImages.isSome = true ∧
      (payFrames.lastFrame.isSome = true ∨ payFrames.image.isSome = true))
  ∧ ¬(payFrames.video.isSome = true ∧
      (payFrames.lastFrame.isSome = true ∨ payFrames.image.isSome = true)) :=
  mode_determines_unique_augmentation cfgFrames payFrames rfl

/-- C3: every config in EXTEND_VIDEO mode with no input video object makes
the builder fail with the validation error whose message says an input
video is required to extend, and `generateVideo` (with any usable
credential, any remote, any fuel) rejects with that error with zero submit,
poll and fetch calls. -/
theorem extend_without_input_video_validation (p : GenerateVideoParams)
    (hm : p.mode = GenerationMode.EXTEND_VIDEO) (hv : p.inputVideoObject = none) :
    buildPayload p = Except.error GenError.validation
  ∧ errMessage GenError.validation = "An input video object is required to extend a video."
  ∧ ∀ (r : Remote) (fuel : Nat) (key : String), trimStr key ≠ "" →
      runGenerate r (some key) p fuel =
        some { result := Except.error GenError.validation, submits := 0, polls := 0,
               fetches := 0, sleeps := [] } := by
  have hbuild : buildPayload p = Except.error GenError.validation := by
    simp [buildPayload, hm, hv]
  refine ⟨hbuild, rfl, ?_⟩
  intro r fuel key hk
  simp [runGenerate, resolveKey, hk, hbuild]

/-- Witness for C3 at a concrete extension config with no input video. -/
theorem extend_without_input_video_validation_witness :
    buildPayload cfgExtendNone = Except.error GenError.validation
  ∧ runGenerate idleRemote (some "test-key") cfgExtendNone 1 =
      some { result := Except.error GenError.validation, submits := 0, polls := 0,
             fetches := 0, sleeps := [] } :=
  ⟨(extend_without_input_video_validation cfgExtendNone rfl rfl).1,
   (extend_without_input_video_validation cfgExtendNone rfl rfl).2.2
     idleRemote 1 "test-key" (by decide)⟩

/-- C4: when a generation attempt whose key check was skipped (the retry
issued right after credential selection, which `handleApiKeyDialogContinue`
always issues with the skip flag) fails with a missing-credential message,
the app returns to IDLE with no error message and no dialog change, and
the attempted configuration becomes the initial form values; the service
missing-key error message does match the classified substring. -/
theorem retry_missing_key_silent_idle (st : UIState)
    (params : GenerateVideoParams) (msg : String)
    (h : strContains msg "An API Key must be set" = true ∨
      strContains msg "API key is missing" = true) :
    (handleGenerateFailed st params true msg).appState = UIAppState.IDLE
  ∧ (handleGenerateFailed st params true msg).errorMessage = none
  ∧ (handleGenerateFailed st params true msg).initialFormValues = some params
  ∧ (handleGenerateFailed st params true msg).showApiKeyDialog = st.showApiKeyDialog
  ∧ strContains (errMessage GenError.missingKey) "API key is missing" = true
  ∧ (Option.map Prod.snd (dialogContinueCall st) = none ∨
      Option.map Prod.snd (dialogContinueCall st) = some true) := by
  have hcond : (strContains msg "An API Key must be set" ||
      strContains msg "API key is missing") = true := by
    rcases h with h | h <;> simp [h]
  refine ⟨?_, ?_, ?_, ?_, by decide, dialog_continue_snd st⟩ <;>
    simp [handleGenerateFailed, handleGenerateCatch, preGenerate, hcond]

/-- Witness for C4 at the idle UI state and the literal service error. -/
theorem retry_missing_key_silent_idle_witness :
    (handleGenerateFailed uiIdle cfgText true (errMessage GenError.missingKey)).appState =
      UIAppState.IDLE
  ∧ (handleGenerateFailed uiIdle cfgText true (errMessage GenError.missingKey)).errorMessage =
      none
  ∧ (handleGenerateFailed uiIdle cfgText true
      (errMessage GenError.missingKey)).initialFormValues = some cfgText
  ∧ (handleGenerateFailed uiIdle cfgText true
      (errMessage GenError.missingKey)).showApiKeyDialog = uiIdle.showApiKeyDialog
  ∧ strContains (errMessage GenError.missingKey) "API key is missing" = true
  ∧ (Option.map Prod.snd (dialogContinueCall uiIdle) = none ∨
      Option.map Prod.snd (dialogContinueCall uiIdle) = some true) :=
  retry_missing_key_silent_idle uiIdle cfgText (errMessage GenError.missingKey)
    (Or.inr (by decide))

/-- C5: with a usable credential and a buildable config, if the remote
reports not-done n times (submit response plus the first n-1 polls) and
done on the n-th response, `generateVideo` terminates with exactly n poll
calls, each preceded by one fixed 10000 ms suspension, for every fuel of at
least n; and if the remote never reports done, no amount of fuel resolves
the call: no client-side timeout or attempt ceiling exists. -/
theorem poll_loop_counts_and_unbounded (r : Remote) (p : GenerateVideoParams)
    (key : String) (pay : RequestPayload)
    (hk : trimStr key ≠ "") (hb : buildPayload p = Except.ok pay) :
    (∀ n : Nat, (∀ k, k < n → (opSeq r pay k).done = false) →
      (opSeq r pay n).done = true → ∀ fuel, n ≤ fuel →
      runGenerate r (some key) p fuel =
        some { result := (finishResult r key (opSeq r pay n)).1, submits := 1,
               polls := n, fetches := (finishResult r key (opSeq r pay n)).2,
               sleeps := List.replicate n 10000 })
  ∧ ((∀ k, (opSeq r pay k).done = false) →
      ∀ fuel, runGenerate r (some key) p fuel = none) := by
  constructor
  · intro n hlt hn fuel hfuel
    rw [runGenerate_eq r key p pay fuel hk hb,
        show r.submit pay = opSeq r pay 0 from rfl,
        pollLoop_opSeq r pay n hlt hn fuel 0 (Nat.zero_le n) (by omega)]
  · intro hall fuel
    rw [runGenerate_eq r key p pay fuel hk hb,
        show r.submit pay = opSeq r pay 0 from rfl,
        pollLoop_never r pay hall fuel 0]

/-- Witness for C5: a fake remote reporting done=false twice then done=true
resolves after exactly two polls and two 10-second suspensions. -/
theorem poll_loop_counts_and_unbounded_witness :
    runGenerate remotePoll2 (some "test-key") cfgText 2 =
      some { result := (finishResult remotePoll2 "test-key" (opSeq remotePoll2 payText 2)).1,
             submits := 1, polls := 2,
             fetches := (finishResult remotePoll2 "test-key" (opSeq remotePoll2 payText 2)).2,
             sleeps := List.replicate 2 10000 } :=
  (poll_loop_counts_and_unbounded remotePoll2 cfgText "test-key" payText
      (by decide) rfl).1
    2 (by decide) rfl 2 (Nat.le_refl 2)

/-- C6: for every looping frames-to-video config, the assembled payload has
its last-frame field equal to its seed-image field, both equal to the
mapped start frame, and both absent when the start frame is absent,
whatever the end frame is. -/
theorem looping_frames_last_frame_eq_seed (p : GenerateVideoParams)
    (pay : RequestPayload)
    (hm : p.mode = GenerationMode.FRAMES_TO_VIDEO) (hl : p.isLooping = true)
    (hb : buildPayload p = Except.ok pay) :
    pay.lastFrame = pay.image
  ∧ pay.image = Option.map toImagePayload p.startFrame
  ∧ (p.startFrame = none → pay.lastFrame = none ∧ pay.image = none) := by
  simp [buildPayload, hm, hl] at hb
  subst hb
  simp

/-- Witness for C6 at a looping config with a distinct end frame. -/
theorem looping_frames_last_frame_eq_seed_witness :
    payFrames.lastFrame = payFrames.image
  ∧ payFrames.image = Option.map toImagePayload cfgFrames.startFrame
  ∧ (cfgFrames.startFrame = none → payFrames.lastFrame = none ∧ payFrames.image = none) :=
  looping_frames_last_frame_eq_seed cfgFrames payFrames rfl rfl rfl

set_option maxRecDepth 100000 in
/-- C7: every SOCIAL_PROMO payload carries the fixed template prompt built
from the defaulted promo fields, with the user prompt appended when
non-empty; the start frame (when present) is the seed image; and at 50
percent the template of each service variant contains the substring 50%
exactly twice. -/
theorem social_promo_prompt_assembly (p : GenerateVideoParams)
    (pay : RequestPayload)
    (hm : p.mode = GenerationMode.SOCIAL_PROMO)
    (hb : buildPayload p = Except.ok pay) :
    pay.prompt = some (promoPrompt (defStr p.promoText "INGRESSO PROMOCIONAL R$50")
      (defStr p.promoPrice "EQUIPE CERTA") (defNat p.promoPercent 94) p.prompt)
  ∧ (p.prompt ≠ "" →
      strContains (promoPrompt (defStr p.promoText "INGRESSO PROMOCIONAL R$50")
        (defStr p.promoPrice "EQUIPE CERTA") (defNat p.promoPercent 94) p.prompt)
        p.prompt = true)
  ∧ pay.image = Option.map toImagePayload p.startFrame
  ∧ countOccs "50%" (promoPrompt "INGRESSO PROMOCIONAL R$50" "EQUIPE CERTA" 50 "") = 2
  ∧ countOccs "50%" (promoPromptG "INGRESSO PROMOCIONAL R$50" "EQUIPE CERTA" 50 "") = 2 := by
  refine ⟨social_prompt_eq p pay hm hb,
    fun hu => promoPrompt_contains_user _ _ _ _ hu,
    social_image_eq p pay hm hb, ?_, ?_⟩
  · decide
  · decide

/-- Witness for C7 at the spec scenario: promoPercent 50 with a start
frame. -/
theorem social_promo_prompt_assembly_witness :
    paySocial.prompt = some (promoPrompt
      (defStr cfgSocial.promoText "INGRESSO PROMOCIONAL R$50")
      (defStr cfgSocial.promoPrice "EQUIPE CERTA")
      (defNat cfgSocial.promoPercent 94) cfgSocial.prompt)
  ∧ (cfgSocial.prompt ≠ "" →
      strContains (promoPrompt (defStr cfgSocial.promoText "INGRESSO PROMOCIONAL R$50")
        (defStr cfgSocial.promoPrice "EQUIPE CERTA")
        (defNat cfgSocial.promoPercent 94) cfgSocial.prompt) cfgSocial.prompt = true)
  ∧ paySocial.image = Option.map toImagePayload cfgSocial.startFrame
  ∧ countOccs "50%" (promoPrompt "INGRESSO PROMOCIONAL R$50" "EQUIPE CERTA" 50 "") = 2
  ∧ countOccs "50%" (promoPromptG "INGRESSO PROMOCIONAL R$50" "EQUIPE CERTA" 50 "") = 2 :=
  social_promo_prompt_assembly cfgSocial paySocial rfl rfl

/-- C8: whenever the operation completes (after any number of polls) with
an absent response, or a response whose generated-video list is absent or
empty, `generateVideo` rejects with the empty-result error whose message
says no videos were generated, and no artifact fetch is attempted. -/
theorem empty_result_rejection (r : Remote) (p : GenerateVideoParams)
    (key : String) (pay : RequestPayload) (n fuel : Nat)
    (hk : trimStr key ≠ "") (hb : buildPayload p = Except.ok pay)
    (hlt : ∀ k, k < n → (opSeq r pay k).done = false)
    (hn : (opSeq r pay n).done = true)
    (hresp : (opSeq r pay n).response = none ∨
      ∃ resp, (opSeq r pay n).response = some resp ∧
        (resp.generatedVideos = none ∨ resp.generatedVideos = some []))
    (hfuel : n ≤ fuel) :
    runGenerate r (some key) p fuel =
      some { result := Except.error GenError.emptyResult, submits := 1, polls := n,
             fetches := 0, sleeps := List.replicate n 10000 }
  ∧ errMessage GenError.emptyResult = "No videos generated." := by
  have hfin : finishResult r key (opSeq r pay n) = (Except.error GenError.emptyResult, 0) := by
    rcases hresp with h | ⟨resp, hr, hg⟩
    · simp [finishResult, h]
    · rcases hg with hg | hg <;> simp [finishResult, hr, hg]
  refine ⟨?_, rfl⟩
  rw [runGenerate_eq r key p pay fuel hk hb,
      show r.submit pay = opSeq r pay 0 from rfl,
      pollLoop_opSeq r pay n hlt hn fuel 0 (Nat.zero_le n) (by omega)]
  simp [hfin]

/-- Witness for C8: a remote completing at once with an empty video list. -/
theorem empty_result_rejection_witness :
    runGenerate remoteEmpty (some "test-key") cfgText 0 =
      some { result := Except.error GenError.emptyResult, submits := 1, polls := 0,
             fetches := 0, sleeps := List.replicate 0 10000 }
  ∧ errMessage GenError.emptyResult = "No videos generated." :=
  empty_result_rejection remoteEmpty cfgText "test-key" payText 0 0
    (by decide) rfl (fun k hk => absurd hk (Nat.not_lt_zero k)) rfl
    (Or.inr ⟨⟨some []⟩, rfl, Or.inr rfl⟩) (Nat.le_refl 0)

/-- C9: when the submitted operation is already complete with a first
generated video, the artifact fetch (at the percent-decoded URI with the
key appended) decides the outcome: a non-2xx HTTP status rejects with the
download error carrying that status, a 2xx status returns the artifact
wrapping the fetched bytes, the percent-decoded remote URI and the remote
video descriptor; the download error message carries the status code. -/
theorem download_error_and_success_artifact (r : Remote) (p : GenerateVideoParams)
    (key : String) (pay : RequestPayload) (gv : GeneratedVideo)
    (rest : List GeneratedVideo) (resp : OpResponse) (st : Nat) (b : String)
    (fuel : Nat)
    (hk : trimStr key ≠ "") (hb : buildPayload p = Except.ok pay)
    (hdone : (r.submit pay).done = true)
    (hresp : (r.submit pay).response = some resp)
    (hgv : resp.generatedVideos = some (gv :: rest))
    (hfetch : r.fetchRes (percentDecode gv.video.uri ++ "&key=" ++ key) = (st, b)) :
    ((st < 200 ∨ 299 < st) →
      runGenerate r (some key) p fuel =
        some { result := Except.error (GenError.download st), submits := 1, polls := 0,
               fetches := 1, sleeps := [] })
  ∧ (200 ≤ st → st ≤ 299 →
      runGenerate r (some key) p fuel =
        some { result := Except.ok ⟨b, percentDecode gv.video.uri, gv.video⟩,
               submits := 1, polls := 0, fetches := 1, sleeps := [] })
  ∧ errMessage (GenError.download st) = "Failed to fetch video: " ++ toString st := by
  have hrun : runGenerate r (some key) p fuel =
      some { result := (finishResult r key (r.submit pay)).1, submits := 1, polls := 0,
             fetches := (finishResult r key (r.submit pay)).2, sleeps := [] } := by
    rw [runGenerate_eq r key p pay fuel hk hb, pollLoop_done r fuel _ 0 hdone]
    rfl
  have hfin : finishResult r key (r.submit pay) =
      (if 200 ≤ st ∧ st ≤ 299 then
        (Except.ok ⟨b, percentDecode gv.video.uri, gv.video⟩, 1)
      else (Except.error (GenError.download st), 1)) := by
    simp [finishResult, hresp, hgv, hfetch]
  refine ⟨?_, ?_, rfl⟩
  · intro hst
    rw [hrun, hfin, if_neg (by omega)]
  · intro h1 h2
    rw [hrun, hfin, if_pos ⟨h1, h2⟩]

/-- Witness for C9: the artifact fetch answers HTTP 403 and the call
rejects with the download error carrying 403. -/
theorem download_error_and_success_artifact_witness :
    runGenerate remote403 (some "test-key") cfgText 1 =
      some { result := Except.error (GenError.download 403), submits := 1, polls := 0,
             fetches := 1, sleeps := [] }
  ∧ errMessage (GenError.download 403) = "Failed to fetch video: " ++ toString 403 :=
  ⟨(download_error_and_success_artifact remote403 cfgText "test-key" payText
      ⟨sampleVideoObj⟩ [] ⟨some [⟨sampleVideoObj⟩]⟩ 403 "denied" 1
      (by decide) rfl rfl rfl rfl rfl).1 (Or.inr (by decide)),
   (download_error_and_success_artifact remote403 cfgText "test-key" payText
      ⟨sampleVideoObj⟩ [] ⟨some [⟨sampleVideoObj⟩]⟩ 403 "denied" 1
      (by decide) rfl rfl rfl rfl rfl).2.2⟩

set_option maxRecDepth 100000 in
/-- C10: the SOCIAL_PROMO defaults kick in for every falsy field value, not
just absence: a present-but-zero promoPercent yields 94, and
present-but-empty promoText or promoPrice yield the default strings, each
independently of the other fields; and the defaulted template does contain
the default percent and texts. -/
theorem social_promo_falsy_defaults (p : GenerateVideoParams)
    (pay : RequestPayload)
    (hm : p.mode = GenerationMode.SOCIAL_PROMO)
    (hb : buildPayload p = Except.ok pay) :
    (p.promoPercent = some 0 →
      pay.prompt = some (promoPrompt (defStr p.promoText "INGRESSO PROMOCIONAL R$50")
        (defStr p.promoPrice "EQUIPE CERTA") 94 p.prompt))
  ∧ (p.promoText = some "" →
      pay.prompt = some (promoPrompt "INGRESSO PROMOCIONAL R$50"
        (defStr p.promoPrice "EQUIPE CERTA") (defNat p.promoPercent 94) p.prompt))
  ∧ (p.promoPrice = some "" →
      pay.prompt = some (promoPrompt (defStr p.promoText "INGRESSO PROMOCIONAL R$50")
        "EQUIPE CERTA" (defNat p.promoPercent 94) p.prompt))
  ∧ strContains (promoPrompt "INGRESSO PROMOCIONAL R$50" "EQUIPE CERTA" 94 "") "94%" = true
  ∧ strContains (promoPrompt "INGRESSO PROMOCIONAL R$50" "EQUIPE CERTA" 94 "")
      "INGRESSO PROMOCIONAL R$50" = true
  ∧ strContains (promoPrompt "INGRESSO PROMOCIONAL R$50" "EQUIPE CERTA" 94 "")
      "EQUIPE CERTA" = true := by
  have hgen := social_prompt_eq p pay hm hb
  refine ⟨fun h => ?_, fun h => ?_, fun h => ?_, by decide, by decide, by decide⟩ <;>
    rw [hgen, h] <;> rfl

/-- Witness for C10 at a config whose promo fields are all falsy but
present. -/
theorem social_promo_falsy_defaults_witness :
    (cfgSocialFalsy.promoPercent = some 0 →
      paySocialFalsy.prompt = some (promoPrompt
        (defStr cfgSocialFalsy.promoText "INGRESSO PROMOCIONAL R$50")
        (defStr cfgSocialFalsy.promoPrice "EQUIPE CERTA") 94 cfgSocialFalsy.prompt))
  ∧ (cfgSocialFalsy.promoText = some "" →
      paySocialFalsy.prompt = some (promoPrompt "INGRESSO PROMOCIONAL R$50"
        (defStr cfgSocialFalsy.promoPrice "EQUIPE CERTA")
        (defNat cfgSocialFalsy.promoPercent 94) cfgSocialFalsy.prompt))
  ∧ (cfgSocialFalsy.promoPrice = some "" →
      paySocialFalsy.prompt = some (promoPrompt
        (defStr cfgSocialFalsy.promoText "INGRESSO PROMOCIONAL R$50")
        "EQUIPE CERTA" (defNat cfgSocialFalsy.promoPercent 94) cfgSocialFalsy.prompt))
  ∧ strContains (promoPrompt "INGRESSO PROMOCIONAL R$50" "EQUIPE CERTA" 94 "") "94%" = true
  ∧ strContains (promoPrompt "INGRESSO PROMOCIONAL R$50" "EQUIPE CERTA" 94 "")
      "INGRESSO PROMOCIONAL R$50" = true
  ∧ strContains (promoPrompt "INGRESSO PROMOCIONAL R$50" "EQUIPE CERTA" 94 "")
      "EQUIPE CERTA" = true :=
  social_promo_falsy_defaults cfgSocialFalsy paySocialFalsy rfl rfl
